import Mathlib

/-!
Verification of the Xwayland process supervisor in `compositor/xwayland.c`.

The C file launches one external X11-compatibility server, wires two socket
pairs between the host compositor and that helper, and reconciles a signal
based readiness handshake with process-exit notification.  We give a shallow
embedding of its state and operations: side-effecting calls (logging, closing
descriptors, creating the client object, watching the process, arming and
removing the SIGUSR1 event source, and the collaborator callbacks
xserver_loaded / xserver_exited) are recorded as explicit events, and the
outcomes of the fallible syscalls (socketpair, fork, zalloc, the module-load
and listen steps) are supplied as oracle environments so that each control
path of the C code becomes a branch of a total function.
-/

namespace Xwayland

/-- Side effects performed by the supervisor, in the order the C code issues
them.  `closeFd` is a parent-side close(2); `clientCreate fd` is
wl_client_create on the display-channel parent end; `watchProcess` is
weston_watch_process; `xserverLoaded` / `xserverExited` are the collaborator
API callbacks; `addSignalSource` / `removeSignalSource` are
wl_event_loop_add_signal(SIGUSR1) and wl_event_source_remove. -/
inductive Event where
  | log (msg : String)
  | closeFd (fd : Nat)
  | clientCreate (fd : Nat)
  | watchProcess (pid : Int)
  | xserverLoaded (client : Option Nat) (wmFd : Nat)
  | xserverExited (status : Int)
  | addSignalSource
  | removeSignalSource
  deriving DecidableEq, Repr

/-- The mutable fields of `struct wet_xwayland` that the claims are about:
`client` (NULL modelled as `none`, otherwise the descriptor the wl_client
wraps), `wm_fd`, `process.pid`, plus `armedSources`, the number of SIGUSR1
event sources currently armed in the event loop (the struct itself only
stores a pointer to the most recently armed one, so the count is the honest
model of what is armed), and `running`, whether a watched child process is
alive (true between a successful fork in the parent and the exit
notification). -/
structure SupState where
  client : Option Nat
  wm_fd : Nat
  pid : Int
  armedSources : Nat
  running : Bool
  deriving DecidableEq, Repr

/-- State right after a successful `wet_load_xwayland`: zalloc zeroes the
struct (client NULL, wm_fd 0, pid 0, no child) and the load path arms one
SIGUSR1 source. -/
def initState : SupState :=
  { client := none, wm_fd := 0, pid := 0, armedSources := 1, running := false }

/-- `handle_sigusr1` (xwayland.c:50-62): call
`api->xserver_loaded(xwayland, client, wm_fd)`, then
`wl_event_source_remove(sigusr1_source)`, then return 1 ("handled").
Result: (new state, events in order, return value). -/
def handle_sigusr1 (s : SupState) : SupState × List Event × Int :=
  ({ s with armedSources := s.armedSources - 1 },
   [Event.xserverLoaded s.client s.wm_fd, Event.removeSignalSource],
   1)

/-- `xserver_cleanup` (xwayland.c:189-201): call
`api->xserver_exited(xwayland, status)`, then re-arm a SIGUSR1 source via
`wl_event_loop_add_signal`, then set `client = NULL`.  Nothing else in the
struct is touched. -/
def xserver_cleanup (s : SupState) (status : Int) : SupState × List Event :=
  ({ s with armedSources := s.armedSources + 1, client := none, running := false },
   [Event.xserverExited status, Event.addSignalSource])

/-- Oracle for the fallible syscalls inside `spawn_xserver`: the results of
the two socketpair(2) calls (`none` = failure, `some (fd0, fd1)` = the pair)
and the result of fork(2) (-1 failure, 0 child, positive = child pid in the
parent). -/
structure SpawnEnv where
  sp_sv : Option (Nat × Nat)
  sp_wm : Option (Nat × Nat)
  forkResult : Int
  deriving DecidableEq, Repr

/-- Everything observable about one `spawn_xserver` call in the parent:
the returned pid_t, how many socket pairs were created, whether fork was
reached, how many child processes were created, which of the descriptors
created by this call are still open in the parent when it returns, the side
effects in order, and the updated supervisor state. -/
structure SpawnOutcome where
  ret : Int
  pairsCreated : Nat
  forkCalled : Bool
  processesStarted : Nat
  openFds : List Nat
  events : List Event
  state : SupState
  deriving DecidableEq, Repr

/-- `spawn_xserver` (xwayland.c:64-187), parent-side control flow.
First socketpair failure: log and `return 1` (xwayland.c:76-79).
Second socketpair failure: log and `return 1`, the first pair stays open
(xwayland.c:81-84).  fork = -1: log and fall through to `return pid`,
all four descriptors stay open (xwayland.c:181-186).  fork = 0 is the child
branch, which execs or calls _exit and never returns to the caller.
Parent branch (xwayland.c:170-179): close sv[1], wrap sv[0] in a wl_client,
close wm[1], keep wm[0] as wm_fd, record the pid, watch the process, return
the pid. -/
def spawn_xserver (s : SupState) (env : SpawnEnv) : SpawnOutcome :=
  match env.sp_sv with
  | none =>
      { ret := 1, pairsCreated := 0, forkCalled := false, processesStarted := 0,
        openFds := [], events := [Event.log "wl connection socketpair failed"],
        state := s }
  | some (sv0, sv1) =>
    match env.sp_wm with
    | none =>
        { ret := 1, pairsCreated := 1, forkCalled := false, processesStarted := 0,
          openFds := [sv0, sv1],
          events := [Event.log "X wm connection socketpair failed"],
          state := s }
    | some (wm0, wm1) =>
      if env.forkResult = -1 then
        { ret := -1, pairsCreated := 2, forkCalled := true, processesStarted := 0,
          openFds := [sv0, sv1, wm0, wm1],
          events := [Event.log "Failed to fork to spawn xserver process"],
          state := s }
      else if env.forkResult = 0 then
        -- child branch: the function never returns here (execv or _exit);
        -- the parent's state is untouched by the child's copy.
        { ret := 0, pairsCreated := 2, forkCalled := true, processesStarted := 1,
          openFds := [sv0, sv1, wm0, wm1], events := [], state := s }
      else
        { ret := env.forkResult, pairsCreated := 2, forkCalled := true,
          processesStarted := 1,
          openFds := [sv0, wm0],
          events := [Event.closeFd sv1, Event.clientCreate sv0, Event.closeFd wm1,
                     Event.watchProcess env.forkResult],
          state := { s with client := some sv0, wm_fd := wm0,
                            pid := env.forkResult, running := true } }

/-- The argument vector built in the child branch (xwayland.c:130-157):
9 fixed entries, then either "-listen <abstract_fd_str>" when `abstract_fd`
is nonzero (C truthiness of `if (abstract_fd)`) or "-nolisten local"
otherwise, then "-ac" when disable_access_control is set.  The C code
appends into a 13-slot array with an argc counter; the list here is the
argc-long prefix actually passed to execv, the slot after it being the NULL
terminator. -/
def build_argv (xserver display unix_fd_str wm_fd_str : String)
    (abstract_fd : Nat) (abstract_fd_str : String) (disable_ac : Bool) :
    List String :=
  let argv := [xserver, display, "-rootless", "-core", "-listen", unix_fd_str,
               "-wm", wm_fd_str, "-terminate"]
  let argv := if abstract_fd ≠ 0 then
                (argv.concat "-listen").concat abstract_fd_str
              else
                (argv.concat "-nolisten").concat "local"
  if disable_ac then argv.concat "-ac" else argv

/-- The descriptors the child branch dup(2)s before exec, in order
(xwayland.c:91-111): sv[1]; abstract_fd only under `if (abstract_fd)`,
i.e. only when it is nonzero; unix_fd; wm[1]. -/
def child_dup_sources (sv1 abstract_fd unix_fd wm1 : Nat) : List Nat :=
  [sv1] ++ (if abstract_fd ≠ 0 then [abstract_fd] else []) ++ [unix_fd, wm1]

/-- The operations the event loop can deliver to the supervisor after load:
a spawn request (with the syscall oracle for that attempt), a SIGUSR1
delivery to an armed source, and a process-watch exit notification. -/
inductive Op where
  | spawn (env : SpawnEnv)
  | sigusr1
  | exitNotify (status : Int)
  deriving DecidableEq, Repr

/-- One event-loop delivery.  `handle_sigusr1` only runs when a SIGUSR1
source is armed, and `xserver_cleanup` only runs for a watched live child;
otherwise the delivery cannot occur and the state is unchanged. -/
def step (s : SupState) (op : Op) : SupState :=
  match op with
  | Op.spawn env => (spawn_xserver s env).state
  | Op.sigusr1 => if s.armedSources ≥ 1 then (handle_sigusr1 s).1 else s
  | Op.exitNotify status => if s.running then (xserver_cleanup s status).1 else s

/-- The state after a successful load followed by a sequence of deliveries. -/
def run (ops : List Op) : SupState :=
  ops.foldl step initState

/-- Guard picking out the well-behaved exit deliveries: the exit
notification arrives only after the readiness signal of the same cycle has
been consumed (no SIGUSR1 source left armed). -/
def exitGuard (s : SupState) : Op → Bool
  | Op.exitNotify _ => s.armedSources == 0
  | _ => true

/-- A delivery sequence in which every helper signalled readiness (and the
signal was consumed) before its exit notification. -/
def readyBeforeExit : SupState → List Op → Bool
  | _, [] => true
  | s, op :: rest => exitGuard s op && readyBeforeExit (step s op) rest

/-- Oracle for the fallible steps of `wet_load_xwayland`:
weston_compositor_load_xwayland, weston_xwayland_get_api, api->get, zalloc,
api->listen. -/
structure LoadEnv where
  loadXwaylandOk : Bool
  apiAvailable : Bool
  xwaylandAvailable : Bool
  allocOk : Bool
  listenOk : Bool
  deriving DecidableEq, Repr

/-- The prerequisite steps of `wet_load_xwayland`, in program order. -/
inductive LoadStep where
  | loadModule
  | getApi
  | getXwayland
  | alloc
  | listen
  | armSignal
  deriving DecidableEq, Repr

/-- Outcome of one `wet_load_xwayland` call: the return value, which steps
ran before it returned, whether the wet_xwayland struct was allocated,
whether an allocated struct was freed again before returning, and whether
the initial SIGUSR1 source was armed. -/
structure LoadOutcome where
  ret : Int
  stepsRun : List LoadStep
  allocated : Bool
  released : Bool
  armed : Bool
  deriving DecidableEq, Repr

/-- `wet_load_xwayland` (xwayland.c:203-242): each prerequisite returns -1
immediately on failure.  After zalloc succeeds the struct is allocated; the
`api->listen` failure path (xwayland.c:234-235) returns -1 directly, with no
free of the struct. -/
def wet_load_xwayland (env : LoadEnv) : LoadOutcome :=
  if !env.loadXwaylandOk then
    { ret := -1, stepsRun := [LoadStep.loadModule],
      allocated := false, released := false, armed := false }
  else if !env.apiAvailable then
    { ret := -1, stepsRun := [LoadStep.loadModule, LoadStep.getApi],
      allocated := false, released := false, armed := false }
  else if !env.xwaylandAvailable then
    { ret := -1, stepsRun := [LoadStep.loadModule, LoadStep.getApi, LoadStep.getXwayland],
      allocated := false, released := false, armed := false }
  else if !env.allocOk then
    { ret := -1,
      stepsRun := [LoadStep.loadModule, LoadStep.getApi, LoadStep.getXwayland,
                   LoadStep.alloc],
      allocated := false, released := false, armed := false }
  else if !env.listenOk then
    { ret := -1,
      stepsRun := [LoadStep.loadModule, LoadStep.getApi, LoadStep.getXwayland,
                   LoadStep.alloc, LoadStep.listen],
      allocated := true, released := false, armed := false }
  else
    { ret := 0,
      stepsRun := [LoadStep.loadModule, LoadStep.getApi, LoadStep.getXwayland,
                   LoadStep.alloc, LoadStep.listen, LoadStep.armSignal],
      allocated := true, released := false, armed := true }

/-- Claim C1: the argument vector built before exec is deterministic: it is
exactly the 9 fixed entries [xserver, display, "-rootless", "-core",
"-listen", unix_fd_str, "-wm", wm_fd_str, "-terminate"], followed by exactly
one of ["-listen", abstract_fd_str] (abstract descriptor supplied, i.e.
nonzero) or ["-nolisten", "local"], followed by ["-ac"] iff access control
is disabled, and the slot count including the NULL terminator never exceeds
13. -/
theorem C1_argv_build (xserver display unix_fd_str wm_fd_str abstract_fd_str : String)
    (abstract_fd : Nat) (disable_ac : Bool) :
    build_argv xserver display unix_fd_str wm_fd_str abstract_fd abstract_fd_str disable_ac
      = [xserver, display, "-rootless", "-core", "-listen", unix_fd_str,
         "-wm", wm_fd_str, "-terminate"]
        ++ (if abstract_fd ≠ 0 then ["-listen", abstract_fd_str]
            else ["-nolisten", "local"])
        ++ (if disable_ac then ["-ac"] else [])
    ∧ (build_argv xserver display unix_fd_str wm_fd_str abstract_fd abstract_fd_str
        disable_ac).length + 1 ≤ 13 := by
  rcases eq_or_ne abstract_fd 0 with h | h <;>
    cases disable_ac <;>
      simp [build_argv, h]

/-- Claim C5, counterexample: exit notification does not clear all three
per-spawn fields.  Starting from a state recording helper pid 42 and
wm_fd 7, after `xserver_cleanup` the pid is still 42 and the wm_fd still 7 —
only the client handle is cleared, so stale values of the terminated helper
do remain in the supervisor state. -/
theorem C5_stale_fields_cex :
    (xserver_cleanup { client := some 3, wm_fd := 7, pid := 42,
                       armedSources := 0, running := true } 0).1.pid = 42
    ∧ (xserver_cleanup { client := some 3, wm_fd := 7, pid := 42,
                         armedSources := 0, running := true } 0).1.wm_fd = 7
    ∧ ¬ ((xserver_cleanup { client := some 3, wm_fd := 7, pid := 42,
                            armedSources := 0, running := true } 0).1.pid = 0
         ∧ (xserver_cleanup { client := some 3, wm_fd := 7, pid := 42,
                              armedSources := 0, running := true } 0).1.wm_fd = 0) := by
  decide

/-- Claim C5, amended: on every exit notification the handler clears only
`clientHandle` (to null); `processId` and `windowManagerChannelFd` are left
unchanged, retaining the terminated helper's values. -/
theorem C5_clears_client_only (s : SupState) (status : Int) :
    (xserver_cleanup s status).1.client = none
    ∧ (xserver_cleanup s status).1.pid = s.pid
    ∧ (xserver_cleanup s status).1.wm_fd = s.wm_fd := by
  simp [xserver_cleanup]

/-- Claim C7: on every exit notification the handler performs exactly these
effects, in order: notify the collaborator API of the exit with the status,
arm a fresh readiness (SIGUSR1) subscription, and set the client handle to
null. -/
theorem C7_exit_handler_effects (s : SupState) (status : Int) :
    (xserver_cleanup s status).2 = [Event.xserverExited status, Event.addSignalSource]
    ∧ (xserver_cleanup s status).1.client = none
    ∧ (xserver_cleanup s status).1.armedSources = s.armedSources + 1 := by
  simp [xserver_cleanup]

/-- Claim C8: on every readiness-signal delivery the handler notifies the
collaborator API with the current client handle and wm descriptor, then
removes its own subscription, returns 1 (handled), and never arms a new
subscription itself. -/
theorem C8_sigusr1_handler (s : SupState) :
    (handle_sigusr1 s).2.1
      = [Event.xserverLoaded s.client s.wm_fd, Event.removeSignalSource]
    ∧ (handle_sigusr1 s).2.2 = 1
    ∧ (handle_sigusr1 s).1.armedSources = s.armedSources - 1
    ∧ Event.addSignalSource ∉ (handle_sigusr1 s).2.1 := by
  simp [handle_sigusr1]

/-- Claim C10: with abstract_fd = 0 the child treats the abstract descriptor
as absent — the dup list has no abstract entry (only sv[1], unix_fd, wm[1])
and the argument vector takes the ["-nolisten", "local"] branch, so
descriptor 0 is never passed to the helper as an abstract-namespace
socket. -/
theorem C10_zero_abstract_fd (sv1 unix_fd wm1 : Nat)
    (xserver display unix_fd_str wm_fd_str abstract_fd_str : String)
    (disable_ac : Bool) :
    child_dup_sources sv1 0 unix_fd wm1 = [sv1, unix_fd, wm1]
    ∧ build_argv xserver display unix_fd_str wm_fd_str 0 abstract_fd_str disable_ac
        = [xserver, display, "-rootless", "-core", "-listen", unix_fd_str,
           "-wm", wm_fd_str, "-terminate"]
          ++ ["-nolisten", "local"]
          ++ (if disable_ac then ["-ac"] else []) := by
  cases disable_ac <;> simp [child_dup_sources, build_argv]

/-- Claim C3, counterexample: when both socket pairs are created (as fds
3,4 and 5,6) and fork fails, spawn does return -1, but the `case -1` branch
closes nothing — all four channel descriptors are still open in the parent
when spawn returns, so the claim that both pairs are closed is false. -/
theorem C3_fork_leak_cex :
    (spawn_xserver initState
      { sp_sv := some (3, 4), sp_wm := some (5, 6), forkResult := -1 }).ret = -1
    ∧ (spawn_xserver initState
        { sp_sv := some (3, 4), sp_wm := some (5, 6), forkResult := -1 }).openFds
        = [3, 4, 5, 6]
    ∧ (spawn_xserver initState
        { sp_sv := some (3, 4), sp_wm := some (5, 6), forkResult := -1 }).openFds
        ≠ [] := by
  decide

/-- Claim C3, amended: on fork failure spawn aborts with no process created
and returns -1, a failure sentinel different from the channel-creation
sentinel 1; however the two channel pairs are not closed — all four
descriptors remain open in the parent (they are leaked). -/
theorem C3_fork_failure (s : SupState) (sv0 sv1 wm0 wm1 : Nat) :
    (spawn_xserver s
      { sp_sv := some (sv0, sv1), sp_wm := some (wm0, wm1), forkResult := -1 }).ret = -1
    ∧ (spawn_xserver s
        { sp_sv := some (sv0, sv1), sp_wm := some (wm0, wm1), forkResult := -1 }).ret ≠ 1
    ∧ (spawn_xserver s
        { sp_sv := some (sv0, sv1), sp_wm := some (wm0, wm1), forkResult := -1
        }).processesStarted = 0
    ∧ (spawn_xserver s
        { sp_sv := some (sv0, sv1), sp_wm := some (wm0, wm1), forkResult := -1
        }).openFds = [sv0, sv1, wm0, wm1] := by
  simp [spawn_xserver]

/-- Claim C4: the five prerequisite steps of `wet_load_xwayland` each fail
independently and short-circuit the remaining steps, but when `listen`
fails after the wet_xwayland struct was allocated, the code returns -1
without releasing the allocation: at the failing input (everything succeeds
except listen) the outcome has allocated = true and released = false,
contradicting the claim's release requirement. -/
theorem C4_listen_leak :
    (wet_load_xwayland
      { loadXwaylandOk := false, apiAvailable := true, xwaylandAvailable := true,
        allocOk := true, listenOk := true }).stepsRun = [LoadStep.loadModule]
    ∧ (wet_load_xwayland
        { loadXwaylandOk := true, apiAvailable := false, xwaylandAvailable := true,
          allocOk := true, listenOk := true }).stepsRun
        = [LoadStep.loadModule, LoadStep.getApi]
    ∧ (wet_load_xwayland
        { loadXwaylandOk := true, apiAvailable := true, xwaylandAvailable := false,
          allocOk := true, listenOk := true }).stepsRun
        = [LoadStep.loadModule, LoadStep.getApi, LoadStep.getXwayland]
    ∧ (wet_load_xwayland
        { loadXwaylandOk := true, apiAvailable := true, xwaylandAvailable := true,
          allocOk := false, listenOk := true }).stepsRun
        = [LoadStep.loadModule, LoadStep.getApi, LoadStep.getXwayland, LoadStep.alloc]
    ∧ (wet_load_xwayland
        { loadXwaylandOk := true, apiAvailable := true, xwaylandAvailable := true,
          allocOk := true, listenOk := false })
        = { ret := -1,
            stepsRun := [LoadStep.loadModule, LoadStep.getApi, LoadStep.getXwayland,
                         LoadStep.alloc, LoadStep.listen],
            allocated := true, released := false, armed := false } := by
  decide

/-- Claim C6: if creation of either channel pair fails, spawn aborts before
any fork — fork is never called, no process is created, the cause is
logged, and the failure sentinel 1 is returned to the caller. -/
theorem C6_channel_failure_aborts (s : SupState) (env : SpawnEnv)
    (h : env.sp_sv = none ∨ env.sp_wm = none) :
    (spawn_xserver s env).forkCalled = false
    ∧ (spawn_xserver s env).processesStarted = 0
    ∧ (spawn_xserver s env).ret = 1
    ∧ ∃ msg, Event.log msg ∈ (spawn_xserver s env).events := by
  obtain ⟨sv, wm, fr⟩ := env
  rcases h with h | h
  · subst h
    exact ⟨rfl, rfl, rfl, "wl connection socketpair failed", List.mem_singleton.mpr rfl⟩
  · subst h
    cases sv with
    | none =>
        exact ⟨rfl, rfl, rfl, "wl connection socketpair failed",
               List.mem_singleton.mpr rfl⟩
    | some p =>
        obtain ⟨sv0, sv1⟩ := p
        exact ⟨rfl, rfl, rfl, "X wm connection socketpair failed",
               List.mem_singleton.mpr rfl⟩

/-- Witness for C6 at a concrete failing environment (first socketpair
fails). -/
theorem C6_channel_failure_witness :
    (({ sp_sv := none, sp_wm := none, forkResult := 0 } : SpawnEnv).sp_sv = none
      ∨ ({ sp_sv := none, sp_wm := none, forkResult := 0 } : SpawnEnv).sp_wm = none)
    ∧ ((spawn_xserver initState
          { sp_sv := none, sp_wm := none, forkResult := 0 }).forkCalled = false
       ∧ (spawn_xserver initState
            { sp_sv := none, sp_wm := none, forkResult := 0 }).processesStarted = 0
       ∧ (spawn_xserver initState
            { sp_sv := none, sp_wm := none, forkResult := 0 }).ret = 1
       ∧ ∃ msg, Event.log msg ∈ (spawn_xserver initState
            { sp_sv := none, sp_wm := none, forkResult := 0 }).events) :=
  ⟨Or.inl rfl,
   C6_channel_failure_aborts initState
     { sp_sv := none, sp_wm := none, forkResult := 0 } (Or.inl rfl)⟩

/-- Claim C9: on a successful spawn (both socket pairs created, fork
returns a positive pid) exactly two channel pairs are created and exactly
one process is started; the parent closes the child-held ends sv[1] and
wm[1], wraps sv[0] into the client handle, retains wm[0] as wm_fd, records
the pid and registers it with the process-watch facility, and returns the
pid; only the parent ends remain open. -/
theorem C9_success_spawn (s : SupState) (sv0 sv1 wm0 wm1 : Nat) (pid : Int)
    (h : 0 < pid) :
    (spawn_xserver s
      { sp_sv := some (sv0, sv1), sp_wm := some (wm0, wm1), forkResult := pid
      }).pairsCreated = 2
    ∧ (spawn_xserver s
        { sp_sv := some (sv0, sv1), sp_wm := some (wm0, wm1), forkResult := pid
        }).processesStarted = 1
    ∧ (spawn_xserver s
        { sp_sv := some (sv0, sv1), sp_wm := some (wm0, wm1), forkResult := pid
        }).events
        = [Event.closeFd sv1, Event.clientCreate sv0, Event.closeFd wm1,
           Event.watchProcess pid]
    ∧ (spawn_xserver s
        { sp_sv := some (sv0, sv1), sp_wm := some (wm0, wm1), forkResult := pid
        }).openFds = [sv0, wm0]
    ∧ (spawn_xserver s
        { sp_sv := some (sv0, sv1), sp_wm := some (wm0, wm1), forkResult := pid
        }).state.client = some sv0
    ∧ (spawn_xserver s
        { sp_sv := some (sv0, sv1), sp_wm := some (wm0, wm1), forkResult := pid
        }).state.wm_fd = wm0
    ∧ (spawn_xserver s
        { sp_sv := some (sv0, sv1), sp_wm := some (wm0, wm1), forkResult := pid
        }).state.pid = pid
    ∧ (spawn_xserver s
        { sp_sv := some (sv0, sv1), sp_wm := some (wm0, wm1), forkResult := pid
        }).ret = pid := by
  have h1 : pid ≠ -1 := by omega
  have h2 : pid ≠ 0 := by omega
  simp [spawn_xserver, h1, h2]

/-- Witness for C9 at a concrete successful environment: pairs (3,4) and
(5,6), child pid 7. -/
theorem C9_success_spawn_witness :
    (0 : Int) < 7
    ∧ ((spawn_xserver initState
          { sp_sv := some (3, 4), sp_wm := some (5, 6), forkResult := 7
          }).pairsCreated = 2
       ∧ (spawn_xserver initState
            { sp_sv := some (3, 4), sp_wm := some (5, 6), forkResult := 7
            }).processesStarted = 1
       ∧ (spawn_xserver initState
            { sp_sv := some (3, 4), sp_wm := some (5, 6), forkResult := 7 }).events
            = [Event.closeFd 4, Event.clientCreate 3, Event.closeFd 6,
               Event.watchProcess 7]
       ∧ (spawn_xserver initState
            { sp_sv := some (3, 4), sp_wm := some (5, 6), forkResult := 7 }).openFds
            = [3, 5]
       ∧ (spawn_xserver initState
            { sp_sv := some (3, 4), sp_wm := some (5, 6), forkResult := 7
            }).state.client = some 3
       ∧ (spawn_xserver initState
            { sp_sv := some (3, 4), sp_wm := some (5, 6), forkResult := 7
            }).state.wm_fd = 5
       ∧ (spawn_xserver initState
            { sp_sv := some (3, 4), sp_wm := some (5, 6), forkResult := 7
            }).state.pid = 7
       ∧ (spawn_xserver initState
            { sp_sv := some (3, 4), sp_wm := some (5, 6), forkResult := 7 }).ret = 7) :=
  ⟨by decide, C9_success_spawn initState 3 4 5 6 7 (by decide)⟩

/-- `spawn_xserver` never touches the SIGUSR1 sources: the armed count is
unchanged on every path. -/
lemma spawn_armed_eq (s : SupState) (env : SpawnEnv) :
    (spawn_xserver s env).state.armedSources = s.armedSources := by
  obtain ⟨sv, wm, fr⟩ := env
  cases sv with
  | none => rfl
  | some p =>
    obtain ⟨sv0, sv1⟩ := p
    cases wm with
    | none => rfl
    | some q =>
      obtain ⟨wm0, wm1⟩ := q
      simp only [spawn_xserver]
      split
      · rfl
      · split <;> rfl

/-- A delivery step keeps the armed count at most one, provided an exit
notification is only delivered when no source is armed. -/
lemma step_armed_le (s : SupState) (op : Op) (h1 : s.armedSources ≤ 1)
    (h2 : exitGuard s op = true) : (step s op).armedSources ≤ 1 := by
  cases op with
  | spawn env => simpa [step, spawn_armed_eq] using h1
  | sigusr1 =>
      simp only [step]
      split
      · simp only [handle_sigusr1]
        omega
      · exact h1
  | exitNotify status =>
      have h0 : s.armedSources = 0 := by
        simpa [exitGuard] using h2
      simp only [step]
      split
      · simp only [xserver_cleanup]
        omega
      · exact h1

/-- Claim C2, counterexample: the zero-or-one invariant on armed readiness
subscriptions fails.  From the loaded state, a successful spawn followed by
an exit notification in which the helper never signalled readiness leaves
two SIGUSR1 sources armed: the one armed at load time is never removed, and
the exit handler arms a second one. -/
theorem C2_double_arm_cex :
    ¬ ∀ ops : List Op, (run ops).armedSources ≤ 1 := by
  intro h
  have h2 := h [Op.spawn { sp_sv := some (3, 4), sp_wm := some (5, 6), forkResult := 7 },
                Op.exitNotify 1]
  exact absurd h2 (by decide)

/-- Claim C2, amended: starting from any state with at most one armed
readiness subscription (in particular the loaded state, which has exactly
one), every delivery sequence in which each exit notification arrives only
after that cycle's readiness signal has been consumed keeps the armed count
at zero or one; the bound can only be exceeded when a helper exits before
its readiness signal is delivered. -/
theorem C2_armed_le_one (ops : List Op) (s : SupState)
    (h1 : s.armedSources ≤ 1) (h2 : readyBeforeExit s ops = true) :
    (ops.foldl step s).armedSources ≤ 1 := by
  induction ops generalizing s with
  | nil => simpa using h1
  | cons op rest ih =>
      rw [readyBeforeExit, Bool.and_eq_true] at h2
      rw [List.foldl_cons]
      exact ih (step s op) (step_armed_le s op h1 h2.1) h2.2

/-- Witness for the amended C2 at the loaded state and a concrete
well-behaved cycle: spawn, readiness delivered, then exit. -/
theorem C2_armed_le_one_witness :
    initState.armedSources ≤ 1
    ∧ readyBeforeExit initState
        [Op.spawn { sp_sv := some (3, 4), sp_wm := some (5, 6), forkResult := 7 },
         Op.sigusr1, Op.exitNotify 0] = true
    ∧ ([Op.spawn { sp_sv := some (3, 4), sp_wm := some (5, 6), forkResult := 7 },
        Op.sigusr1, Op.exitNotify 0].foldl step initState).armedSources ≤ 1 :=
  ⟨by decide, by decide,
   C2_armed_le_one
     [Op.spawn { sp_sv := some (3, 4), sp_wm := some (5, 6), forkResult := 7 },
      Op.sigusr1, Op.exitNotify 0]
     initState (by decide) (by decide)⟩

end Xwayland
